import Mathlib

/-!
Verification of the Diabetic Retinopathy SVC front-end (`src/app_svm.py`).

The app collects four bounded numeric vitals, passes them (and nothing else)
to a pre-trained SVC artifact, derives two display-only blood-pressure
metrics, and renders a message branch, a gauge, and a downloadable text
report.  The embedding below translates the functional surface of the
script: the animation fetch helper `load_lottie_url`, the input widgets,
the input dataframe, the prediction and confidence extraction, the derived
metrics, the gauge figure, and the report string.  Machine reals are
modelled as rationals; the `%.2f` rendering is modelled by `fmt2`.
-/

namespace DRApp

/-- One row of the input DataFrame: ordered (column-name, value) pairs,
mirroring `pd.DataFrame([{...}])` at `app_svm.py:160-165`. -/
abbrev Row := List (String × ℚ)

/-- `input_df` from `app_svm.py:160-165`: exactly the four raw fields, in the
dict's order `age, systolic_bp, diastolic_bp, cholesterol`. -/
def input_df (age : ℤ) (systolic_bp diastolic_bp cholesterol : ℚ) : Row :=
  [ ("age", (age : ℚ))
  , ("systolic_bp", systolic_bp)
  , ("diastolic_bp", diastolic_bp)
  , ("cholesterol", cholesterol) ]

/-- Modelled from the spec: the classifier artifact
`retinopathy_model_svm.pkl` is not under `src/`; per §6 it exposes `predict`
and `predict_proba` over a 4-field numeric record, returning (§3, §8) a
label in `{0,1}` and a per-class probability vector of length 2 whose
entries are nonnegative and sum to 1.  `predict` is not constrained to be
the argmax of `predict_proba` (§9 notes they can disagree for an SVC). -/
structure SVCModel where
  predict : Row → ℕ
  predict_proba : Row → List ℚ
  predict_mem : ∀ r, predict r = 0 ∨ predict r = 1
  proba_length : ∀ r, (predict_proba r).length = 2
  proba_nonneg : ∀ r, ∀ p ∈ predict_proba r, 0 ≤ p
  proba_sum : ∀ r, (predict_proba r).sum = 1

/-- The index of the larger of the two class probabilities (first on ties),
as `numpy.argmax` would compute it on a 2-vector. -/
def argmax2 (l : List ℚ) : ℕ :=
  if l.getD 0 0 < l.getD 1 0 then 1 else 0

/-- The outcome of one `requests.get` call: a timeout (raised as an
exception by `requests`), or a response with a status code and a body that
either parses as JSON (`some payload`) or is malformed (`none`). -/
inductive Fetch where
  | timeout
  | resp (status : ℕ) (body : Option String)
deriving DecidableEq

/-- `load_lottie_url` from `app_svm.py:65-69`.  A non-200 status returns
`None`; a timeout propagates out of `requests.get`, and a malformed body
propagates out of `r.json()` — neither is caught, so both surface as
`Except.error` (an uncaught exception aborting the script run). -/
def load_lottie_url : Fetch → Except String (Option String)
  | .timeout => .error "requests.exceptions.Timeout"
  | .resp status body =>
      if status ≠ 200 then .ok none
      else
        match body with
        | none => .error "requests.exceptions.JSONDecodeError"
        | some j => .ok (some j)

/-- One animation column (`app_svm.py:86-96`): the animation when the fetch
yielded a payload, otherwise the warning placeholder. -/
inductive Slot where
  | animation (data : String)
  | warning
deriving DecidableEq

def renderSlot : Option String → Slot
  | some j => .animation j
  | none => .warning

/-- `pulse_pressure` from `app_svm.py:175`. -/
def pulse_pressure (systolic_bp diastolic_bp : ℚ) : ℚ :=
  systolic_bp - diastolic_bp

/-- `mean_arterial_pressure` from `app_svm.py:176`. -/
def mean_arterial_pressure (systolic_bp diastolic_bp : ℚ) : ℚ :=
  (systolic_bp + 2 * diastolic_bp) / 3

/-- Left-pads the fractional part to two digits. -/
def pad2 (n : ℕ) : String :=
  if n < 10 then "0" ++ toString n else toString n

/-- Python's `f"{x:.2f}"` rendering on the rational model of the float:
round to the nearest hundredth and print sign, integer part, and a
two-digit fractional part. -/
def fmt2 (q : ℚ) : String :=
  let n : ℤ := ⌊q * 100 + 1 / 2⌋
  (if n < 0 then "-" else "")
    ++ toString (n.natAbs / 100) ++ "." ++ pad2 (n.natAbs % 100)

/-- The Derived-Metrics Calculator exactly as the spec words it (§3,
§4.3): `(systolic_bp, diastolic_bp) ↦ (systolic_bp − diastolic_bp,
(systolic_bp + 2·diastolic_bp) / 3)`, stated separately from the source
translation so the two can be compared. -/
def spec_derived_metrics (systolic_bp diastolic_bp : ℚ) : ℚ × ℚ :=
  (systolic_bp - diastolic_bp, (systolic_bp + 2 * diastolic_bp) / 3)

/-- The label string of the report (`app_svm.py:273`): Python truthiness of
`prediction`, i.e. nonzero selects `"DR Present"`. -/
def label_string (prediction : ℕ) : String :=
  if prediction ≠ 0 then "DR Present" else "No DR"

/-- The risk-present message branch test (`app_svm.py:212`):
`prediction == 1`. -/
def riskBranch (prediction : ℕ) : Bool :=
  prediction == 1

/-- The downloadable report string (`app_svm.py:272-277`). -/
def report (prediction : ℕ) (confidence pp map : ℚ) : String :=
  "\nPrediction: " ++ label_string prediction
    ++ "\nConfidence: " ++ fmt2 confidence
    ++ "\nPulse Pressure: " ++ fmt2 pp
    ++ "\nMean Arterial Pressure: " ++ fmt2 map
    ++ "\n"

/-- The fixed download filename (`app_svm.py:278`). -/
def report_file_name : String := "dr_prediction_report.txt"

/-- The gauge figure's fields (`app_svm.py:245-265`). -/
structure Gauge where
  value : ℚ
  axis_range : ℚ × ℚ
  bar_color : String
  steps : List ((ℚ × ℚ) × String)
  threshold_value : ℚ
  title : String
deriving DecidableEq

/-- The `go.Indicator` gauge built at `app_svm.py:245-265`. -/
def gauge (prediction : ℕ) (confidence : ℚ) : Gauge :=
  { value := confidence * 100
  , axis_range := (0, 100)
  , bar_color := if prediction = 0 then "green" else "red"
  , steps :=
      [ ((0, 50), "#d4edda")
      , ((50, 75), "#fff3cd")
      , ((75, 100), "#f8d7da") ]
  , threshold_value := confidence * 100
  , title :=
      if prediction = 1 then "Confidence in DR Presence (%)"
      else "Confidence in No DR (%)" }

/-- Everything the submitted-branch of the script renders. -/
structure AppOutput where
  slot1 : Slot
  slot2 : Slot
  prediction : ℕ
  confidence : ℚ
  pulse_pressure : ℚ
  mean_arterial_pressure : ℚ
  gauge : Gauge
  report : String
deriving DecidableEq

/-- The submitted branch of the script (`app_svm.py:157-278`) once both
animation payloads are available: the prediction on `input_df`, the
confidence at the predicted index (`pred_proba[prediction]`,
`app_svm.py:170`), the derived metrics, the gauge and the report. -/
def appOutput (m : SVCModel) (age : ℤ)
    (systolic_bp diastolic_bp cholesterol : ℚ)
    (a1 a2 : Option String) : AppOutput :=
  let df := input_df age systolic_bp diastolic_bp cholesterol
  let prediction := m.predict df
  let pred_proba := m.predict_proba df
  let confidence := pred_proba.getD prediction 0
  let pp := pulse_pressure systolic_bp diastolic_bp
  let map := mean_arterial_pressure systolic_bp diastolic_bp
  { slot1 := renderSlot a1
  , slot2 := renderSlot a2
  , prediction := prediction
  , confidence := confidence
  , pulse_pressure := pp
  , mean_arterial_pressure := map
  , gauge := gauge prediction confidence
  , report := report prediction confidence pp map }

/-- One run of the script with the form submitted: the two animation
fetches happen first (an uncaught exception there aborts the run, as
nothing in the script catches it), then the submitted branch renders. -/
def runApp (m : SVCModel) (f1 f2 : Fetch) (age : ℤ)
    (systolic_bp diastolic_bp cholesterol : ℚ) :
    Except String AppOutput :=
  match load_lottie_url f1 with
  | .error e => .error e
  | .ok a1 =>
    match load_lottie_url f2 with
    | .error e => .error e
    | .ok a2 => .ok (appOutput m age systolic_bp diastolic_bp cholesterol a1 a2)

/-- A bounded numeric input widget: the `min_value`, `max_value` and
default `value` keyword arguments of `st.number_input`. -/
structure NumberInput (α : Type) where
  min_value : α
  max_value : α
  value : α

/-- Modelled from the spec: Streamlit's bounded widget semantics are
library code not under `src/`; per §4.2 a value outside `[min, max]` is
rejected at the collection boundary, so a field value is produced only
when it lies within the widget's bounds. -/
def NumberInput.accept [LinearOrder α] (ni : NumberInput α) (x : α) :
    Option α :=
  if ni.min_value ≤ x ∧ x ≤ ni.max_value then some x else none

/-- The Age widget (`app_svm.py:142`). -/
def ageInput : NumberInput ℤ := ⟨30, 105, 50⟩

/-- The Systolic Blood Pressure widget (`app_svm.py:143-144`). -/
def systolicInput : NumberInput ℚ := ⟨70, 130, 120⟩

/-- The Cholesterol Level widget (`app_svm.py:147`). -/
def cholesterolInput : NumberInput ℚ := ⟨70, 130, 90⟩

/-- The Diastolic Blood Pressure widget (`app_svm.py:148-149`). -/
def diastolicInput : NumberInput ℚ := ⟨60, 120, 80⟩

/-- The Input Collector: a request object is constructed only when every
widget accepts its value (`app_svm.py:136-151` with the widget semantics
above). -/
def collect (age : ℤ) (systolic_bp cholesterol diastolic_bp : ℚ) :
    Option (ℤ × ℚ × ℚ × ℚ) :=
  match ageInput.accept age, systolicInput.accept systolic_bp,
      diastolicInput.accept diastolic_bp,
      cholesterolInput.accept cholesterol with
  | some a, some s, some d, some c => some (a, s, d, c)
  | _, _, _, _ => none

/-- A concrete instance of the artifact contract: always predicts label 0
with probabilities `[3/5, 2/5]`. -/
def constModel : SVCModel where
  predict _ := 0
  predict_proba _ := [3/5, 2/5]
  predict_mem _ := Or.inl rfl
  proba_length _ := rfl
  proba_nonneg := by
    intro r p hp
    fin_cases hp <;> norm_num
  proba_sum _ := by norm_num

/-- A concrete instance of the artifact contract exhibiting the SVC quirk:
it predicts label 1 although class 0 carries the larger probability. -/
def quirkModel : SVCModel where
  predict _ := 1
  predict_proba _ := [7/10, 3/10]
  predict_mem _ := Or.inr rfl
  proba_length _ := rfl
  proba_nonneg := by
    intro r p hp
    fin_cases hp <;> norm_num
  proba_sum _ := by norm_num

/-- A successful animation fetch outcome. -/
def okFetch : Fetch := .resp 200 (some "lottie")

/-! ## Helper lemmas -/

/-- Evaluation helper: once the rounded hundredths count is known, `fmt2`
is a ground string computation. -/
theorem fmt2_eq (q : ℚ) (n : ℤ) (h : ⌊q * 100 + 1 / 2⌋ = n) :
    fmt2 q = (if n < 0 then "-" else "")
      ++ toString (n.natAbs / 100) ++ "." ++ pad2 (n.natAbs % 100) := by
  simp only [fmt2, h]

/-- A run of the script succeeds exactly when both fetches avoid an
uncaught exception, and then renders the submitted branch. -/
theorem runApp_ok_iff (m : SVCModel) (f1 f2 : Fetch) (age : ℤ)
    (s d c : ℚ) (o : AppOutput) :
    runApp m f1 f2 age s d c = .ok o ↔
      ∃ a1 a2, load_lottie_url f1 = .ok a1 ∧ load_lottie_url f2 = .ok a2 ∧
        o = appOutput m age s d c a1 a2 := by
  constructor
  · intro h
    cases h1 : load_lottie_url f1 with
    | error e => rw [runApp, h1] at h; exact absurd h (by simp)
    | ok a1 =>
      cases h2 : load_lottie_url f2 with
      | error e =>
          rw [runApp, h1, h2] at h
          exact absurd h (by simp)
      | ok a2 =>
          refine ⟨a1, a2, rfl, rfl, ?_⟩
          rw [runApp, h1, h2] at h
          exact (Except.ok.injEq _ _ ▸ h).symm
  · rintro ⟨a1, a2, h1, h2, rfl⟩
    rw [runApp, h1, h2]

/-- The confidence entry `pred_proba[i]` lies in `[0, 1]` for either class
index, by the probability-vector contract of the artifact. -/
theorem proba_getD_bounds (m : SVCModel) (r : Row) (i : ℕ)
    (hi : i = 0 ∨ i = 1) :
    0 ≤ (m.predict_proba r).getD i 0 ∧ (m.predict_proba r).getD i 0 ≤ 1 := by
  obtain ⟨p0, p1, hl⟩ := List.length_eq_two.mp (m.proba_length r)
  have h0 : 0 ≤ p0 := m.proba_nonneg r p0 (by simp [hl])
  have h1 : 0 ≤ p1 := m.proba_nonneg r p1 (by simp [hl])
  have hsum : p0 + p1 = 1 := by simpa [hl] using m.proba_sum r
  rcases hi with rfl | rfl <;> simp [hl] <;> constructor <;> linarith

/-! ## Claims -/

/-- C1: for every prediction, the reported confidence equals the entry of
the model's probability vector at the index of the predicted label
(`pred_proba[prediction]`), not necessarily the maximum of the two class
probabilities; in particular (second conjunct, at `quirkModel`) when the
predicted label's index is not the argmax, the confidence is still the
value at the predicted index (here `3/10`, strictly below the maximum
`7/10`). -/
theorem c1_confidence_at_predicted_index (m : SVCModel) (f1 f2 : Fetch)
    (age : ℤ) (s d c : ℚ) (o : AppOutput)
    (h : runApp m f1 f2 age s d c = .ok o) :
    (o.confidence = (m.predict_proba (input_df age s d c)).getD
        (m.predict (input_df age s d c)) 0) ∧
    ((runApp quirkModel okFetch okFetch 50 120 80 90).map
        (fun o' => (o'.prediction, o'.confidence)) = .ok (1, 3/10) ∧
      argmax2 (quirkModel.predict_proba (input_df 50 120 80 90)) = 0 ∧
      (quirkModel.predict_proba (input_df 50 120 80 90)).getD 0 0 = 7/10 ∧
      (3 : ℚ)/10 < 7/10) := by
  obtain ⟨a1, a2, -, -, rfl⟩ := (runApp_ok_iff m f1 f2 age s d c o).mp h
  refine ⟨rfl, rfl, ?_, rfl, by norm_num⟩
  simp only [argmax2, quirkModel, input_df, List.getD_cons_zero,
    List.getD_cons_succ, if_neg]
  norm_num

/-- Witness for C1 at a concrete run of `constModel`. -/
theorem c1_witness :
    (appOutput constModel 50 120 80 90 (some "lottie")
        (some "lottie")).confidence =
      (constModel.predict_proba (input_df 50 120 80 90)).getD
        (constModel.predict (input_df 50 120 80 90)) 0 :=
  (c1_confidence_at_predicted_index constModel okFetch okFetch 50 120 80 90
    (appOutput constModel 50 120 80 90 (some "lottie") (some "lottie"))
    rfl).1

/-- C2 counterexample: the claim says every fetch failure (timeout,
non-200 status, malformed body) is non-fatal, but a timeout and a
malformed 200 body each propagate as an uncaught exception out of
`load_lottie_url`, aborting the script run before the prediction flow
completes. -/
theorem c2_counterexample :
    runApp constModel Fetch.timeout okFetch 50 120 80 90 =
      .error "requests.exceptions.Timeout" ∧
    runApp constModel (Fetch.resp 200 none) okFetch 50 120 80 90 =
      .error "requests.exceptions.JSONDecodeError" ∧
    (runApp constModel Fetch.timeout okFetch 50 120 80 90).isOk = false :=
  ⟨rfl, rfl, rfl⟩

/-- C2 amended: a fetch completing with a non-200 HTTP status is non-fatal
— it degrades only that animation's slot to the warning placeholder, the
prediction flow completes, and whenever the flow completes the
PredictionResult and DerivedMetrics fields are independent of the fetch
outcomes; a timeout or malformed body, by contrast, is an uncaught
exception (shown false by the counterexample). -/
theorem c2_amended_non200_nonfatal (m : SVCModel) (stat : ℕ)
    (b : Option String) (j : String) (age : ℤ) (s d c : ℚ)
    (h : stat ≠ 200) :
    load_lottie_url (Fetch.resp stat b) = .ok none ∧
    runApp m (Fetch.resp stat b) (Fetch.resp 200 (some j)) age s d c =
      .ok (appOutput m age s d c none (some j)) ∧
    (appOutput m age s d c none (some j)).slot1 = Slot.warning ∧
    (∀ f1' f2' o', runApp m f1' f2' age s d c = .ok o' →
      o'.prediction = (appOutput m age s d c none (some j)).prediction ∧
      o'.confidence = (appOutput m age s d c none (some j)).confidence ∧
      o'.pulse_pressure = (appOutput m age s d c none (some j)).pulse_pressure ∧
      o'.mean_arterial_pressure =
        (appOutput m age s d c none (some j)).mean_arterial_pressure) := by
  have hload : load_lottie_url (Fetch.resp stat b) = .ok none := by
    simp [load_lottie_url, h]
  refine ⟨hload, ?_, rfl, ?_⟩
  · rw [runApp, hload]
    rfl
  · intro f1' f2' o' h'
    obtain ⟨a1, a2, -, -, rfl⟩ :=
      (runApp_ok_iff m f1' f2' age s d c o').mp h'
    exact ⟨rfl, rfl, rfl, rfl⟩

/-- Witness for C2's amended claim at status 404. -/
theorem c2_amended_witness :
    load_lottie_url (Fetch.resp 404 none) = .ok none ∧
    runApp constModel (Fetch.resp 404 none) (Fetch.resp 200 (some "lottie"))
        50 120 80 90 =
      .ok (appOutput constModel 50 120 80 90 none (some "lottie")) ∧
    (appOutput constModel 50 120 80 90 none (some "lottie")).slot1 =
      Slot.warning ∧
    (∀ f1' f2' o', runApp constModel f1' f2' 50 120 80 90 = .ok o' →
      o'.prediction =
        (appOutput constModel 50 120 80 90 none (some "lottie")).prediction ∧
      o'.confidence =
        (appOutput constModel 50 120 80 90 none (some "lottie")).confidence ∧
      o'.pulse_pressure =
        (appOutput constModel 50 120 80 90 none
          (some "lottie")).pulse_pressure ∧
      o'.mean_arterial_pressure =
        (appOutput constModel 50 120 80 90 none
          (some "lottie")).mean_arterial_pressure) :=
  c2_amended_non200_nonfatal constModel 404 none "lottie" 50 120 80 90
    (by decide)

/-- C3: for every in-domain PredictionRequest, invoking the model (as
modelled from the spec's artifact contract) is total, the label is in
`{0,1}`, indexing the probability vector by the label is in bounds, and
the confidence lies in `[0,1]`. -/
theorem c3_invoker_safe (m : SVCModel) (age : ℤ) (s d c : ℚ)
    (_hage : 30 ≤ age ∧ age ≤ 105) (_hs : 70 ≤ s ∧ s ≤ 130)
    (_hd : 60 ≤ d ∧ d ≤ 120) (_hc : 70 ≤ c ∧ c ≤ 130) :
    (m.predict (input_df age s d c) = 0 ∨
      m.predict (input_df age s d c) = 1) ∧
    m.predict (input_df age s d c) <
      (m.predict_proba (input_df age s d c)).length ∧
    0 ≤ (m.predict_proba (input_df age s d c)).getD
        (m.predict (input_df age s d c)) 0 ∧
    (m.predict_proba (input_df age s d c)).getD
        (m.predict (input_df age s d c)) 0 ≤ 1 := by
  have hmem := m.predict_mem (input_df age s d c)
  have hb := proba_getD_bounds m (input_df age s d c) _ hmem
  refine ⟨hmem, ?_, hb.1, hb.2⟩
  rw [m.proba_length]
  rcases hmem with h | h <;> omega

/-- Witness for C3 at `constModel` and the default in-domain request. -/
theorem c3_witness :
    (constModel.predict (input_df 50 120 80 90) = 0 ∨
      constModel.predict (input_df 50 120 80 90) = 1) ∧
    constModel.predict (input_df 50 120 80 90) <
      (constModel.predict_proba (input_df 50 120 80 90)).length ∧
    0 ≤ (constModel.predict_proba (input_df 50 120 80 90)).getD
        (constModel.predict (input_df 50 120 80 90)) 0 ∧
    (constModel.predict_proba (input_df 50 120 80 90)).getD
        (constModel.predict (input_df 50 120 80 90)) 0 ≤ 1 :=
  c3_invoker_safe constModel 50 120 80 90 (by norm_num) (by norm_num)
    (by norm_num) (by norm_num)

/-- C4: the pipeline's derived metrics refine the spec's pure function
`(s, d) ↦ (s − d, (s + 2d)/3)`, with no error conditions (the run's
derived fields always exist when the run completes); at systolic 120 and
diastolic 80 they render as `40.00` and `93.33`. -/
theorem c4_derived_metrics (m : SVCModel) (f1 f2 : Fetch) (age : ℤ)
    (s d c : ℚ) (o : AppOutput) (h : runApp m f1 f2 age s d c = .ok o) :
    (o.pulse_pressure, o.mean_arterial_pressure) = spec_derived_metrics s d ∧
    fmt2 (spec_derived_metrics 120 80).1 = "40.00" ∧
    fmt2 (spec_derived_metrics 120 80).2 = "93.33" := by
  obtain ⟨a1, a2, -, -, rfl⟩ := (runApp_ok_iff m f1 f2 age s d c o).mp h
  refine ⟨rfl, ?_, ?_⟩
  · rw [show (spec_derived_metrics 120 80).1 = (40 : ℚ) by
      norm_num [spec_derived_metrics]]
    rw [fmt2_eq 40 4000 (by norm_num)]
    rfl
  · rw [show (spec_derived_metrics 120 80).2 = (280 / 3 : ℚ) by
      norm_num [spec_derived_metrics]]
    rw [fmt2_eq (280 / 3) 9333 (by norm_num [Int.floor_eq_iff])]
    rfl

/-- Witness for C4 at a concrete successful run. -/
theorem c4_witness :
    ((appOutput constModel 50 120 80 90 (some "lottie")
          (some "lottie")).pulse_pressure,
      (appOutput constModel 50 120 80 90 (some "lottie")
          (some "lottie")).mean_arterial_pressure) =
      spec_derived_metrics 120 80 ∧
    fmt2 (spec_derived_metrics 120 80).1 = "40.00" ∧
    fmt2 (spec_derived_metrics 120 80).2 = "93.33" :=
  c4_derived_metrics constModel okFetch okFetch 50 120 80 90
    (appOutput constModel 50 120 80 90 (some "lottie") (some "lottie")) rfl

/-- C5: the record passed to `predict` and `predict_proba` is exactly the
four raw fields in the order age, systolic_bp, diastolic_bp, cholesterol;
the derived metrics are not among its columns, and the pipeline's
prediction and confidence are obtained from exactly that record. -/
theorem c5_raw_fields_only (m : SVCModel) (f1 f2 : Fetch) (age : ℤ)
    (s d c : ℚ) (o : AppOutput) (h : runApp m f1 f2 age s d c = .ok o) :
    (input_df age s d c).map Prod.fst =
      ["age", "systolic_bp", "diastolic_bp", "cholesterol"] ∧
    "pulse_pressure" ∉ (input_df age s d c).map Prod.fst ∧
    "mean_arterial_pressure" ∉ (input_df age s d c).map Prod.fst ∧
    o.prediction = m.predict (input_df age s d c) ∧
    o.confidence = (m.predict_proba (input_df age s d c)).getD
      (m.predict (input_df age s d c)) 0 := by
  obtain ⟨a1, a2, -, -, rfl⟩ := (runApp_ok_iff m f1 f2 age s d c o).mp h
  have hmap : (input_df age s d c).map Prod.fst =
      ["age", "systolic_bp", "diastolic_bp", "cholesterol"] := rfl
  refine ⟨hmap, ?_, ?_, rfl, rfl⟩ <;> rw [hmap] <;> decide

/-- Witness for C5 at a concrete successful run. -/
theorem c5_witness :
    (input_df 50 120 80 90).map Prod.fst =
      ["age", "systolic_bp", "diastolic_bp", "cholesterol"] ∧
    "pulse_pressure" ∉ (input_df 50 120 80 90).map Prod.fst ∧
    "mean_arterial_pressure" ∉ (input_df 50 120 80 90).map Prod.fst ∧
    (appOutput constModel 50 120 80 90 (some "lottie")
        (some "lottie")).prediction =
      constModel.predict (input_df 50 120 80 90) ∧
    (appOutput constModel 50 120 80 90 (some "lottie")
        (some "lottie")).confidence =
      (constModel.predict_proba (input_df 50 120 80 90)).getD
        (constModel.predict (input_df 50 120 80 90)) 0 :=
  c5_raw_fields_only constModel okFetch okFetch 50 120 80 90
    (appOutput constModel 50 120 80 90 (some "lottie") (some "lottie")) rfl

/-- A value accepted by a bounded widget lies within the widget's bounds. -/
theorem accept_some {α : Type} [LinearOrder α] (ni : NumberInput α)
    (x y : α) (h : ni.accept x = some y) :
    ni.min_value ≤ y ∧ y ≤ ni.max_value := by
  by_cases hc : ni.min_value ≤ x ∧ x ≤ ni.max_value
  · rw [NumberInput.accept, if_pos hc] at h
    cases h
    exact hc
  · rw [NumberInput.accept, if_neg hc] at h
    cases h

/-- C6: the four widgets carry the fixed defaults age 50, systolic 120,
cholesterol 90, diastolic 80; the age widget accepts 30 and 105 and
rejects 29 and 106; and any request the collector constructs has all four
fields within the §3 domains, so no out-of-domain request reaches the
invoker. -/
theorem c6_input_collector_bounds :
    (ageInput.value = 50 ∧ systolicInput.value = 120 ∧
      cholesterolInput.value = 90 ∧ diastolicInput.value = 80) ∧
    (ageInput.accept 30 = some 30 ∧ ageInput.accept 105 = some 105 ∧
      ageInput.accept 29 = none ∧ ageInput.accept 106 = none) ∧
    (∀ ai si ci di a s d c,
      collect ai si ci di = some (a, s, d, c) →
        (30 ≤ a ∧ a ≤ 105) ∧ (70 ≤ s ∧ s ≤ 130) ∧
        (60 ≤ d ∧ d ≤ 120) ∧ (70 ≤ c ∧ c ≤ 130)) := by
  refine ⟨⟨rfl, rfl, rfl, rfl⟩, ⟨?_, ?_, ?_, ?_⟩, ?_⟩
  · norm_num [NumberInput.accept, ageInput]
  · norm_num [NumberInput.accept, ageInput]
  · norm_num [NumberInput.accept, ageInput]
  · norm_num [NumberInput.accept, ageInput]
  · intro ai si ci di a s d c h
    cases hA : ageInput.accept ai with
    | none => simp [collect, hA] at h
    | some a0 =>
      cases hS : systolicInput.accept si with
      | none => simp [collect, hA, hS] at h
      | some s0 =>
        cases hD : diastolicInput.accept di with
        | none => simp [collect, hA, hS, hD] at h
        | some d0 =>
          cases hC : cholesterolInput.accept ci with
          | none => simp [collect, hA, hS, hD, hC] at h
          | some c0 =>
            simp only [collect, hA, hS, hD, hC, Option.some.injEq,
              Prod.mk.injEq] at h
            obtain ⟨rfl, rfl, rfl, rfl⟩ := h
            exact ⟨accept_some ageInput ai _ hA,
              accept_some systolicInput si _ hS,
              accept_some diastolicInput di _ hD,
              accept_some cholesterolInput ci _ hC⟩

/-- Witness for C6: the collector accepts the default inputs and the
resulting request is in-domain. -/
theorem c6_witness :
    (30 ≤ (50 : ℤ) ∧ (50 : ℤ) ≤ 105) ∧
    (70 ≤ (120 : ℚ) ∧ (120 : ℚ) ≤ 130) ∧
    (60 ≤ (80 : ℚ) ∧ (80 : ℚ) ≤ 120) ∧
    (70 ≤ (90 : ℚ) ∧ (90 : ℚ) ≤ 130) := by
  have hA : ageInput.accept 50 = some 50 := by
    norm_num [NumberInput.accept, ageInput]
  have hS : systolicInput.accept 120 = some 120 := by
    norm_num [NumberInput.accept, systolicInput]
  have hD : diastolicInput.accept 80 = some 80 := by
    norm_num [NumberInput.accept, diastolicInput]
  have hC : cholesterolInput.accept 90 = some 90 := by
    norm_num [NumberInput.accept, cholesterolInput]
  exact c6_input_collector_bounds.2.2 50 120 90 80 50 120 80 90
    (by simp only [collect, hA, hS, hD, hC])

/-- C7: for every completed run, the downloadable report interleaves the
human-readable label string, the confidence, the pulse pressure and the
mean arterial pressure (each rendered to two decimal places by `fmt2`),
and is offered under the fixed filename `dr_prediction_report.txt`. -/
theorem c7_report_contents (m : SVCModel) (f1 f2 : Fetch) (age : ℤ)
    (s d c : ℚ) (o : AppOutput) (h : runApp m f1 f2 age s d c = .ok o) :
    o.report = "\nPrediction: " ++ label_string o.prediction
      ++ "\nConfidence: " ++ fmt2 o.confidence
      ++ "\nPulse Pressure: " ++ fmt2 o.pulse_pressure
      ++ "\nMean Arterial Pressure: " ++ fmt2 o.mean_arterial_pressure
      ++ "\n" ∧
    report_file_name = "dr_prediction_report.txt" := by
  obtain ⟨a1, a2, -, -, rfl⟩ := (runApp_ok_iff m f1 f2 age s d c o).mp h
  exact ⟨rfl, rfl⟩

/-- Witness for C7 at a concrete successful run. -/
theorem c7_witness :
    (appOutput constModel 50 120 80 90 (some "lottie")
        (some "lottie")).report =
      "\nPrediction: " ++ label_string (appOutput constModel 50 120 80 90
          (some "lottie") (some "lottie")).prediction
      ++ "\nConfidence: " ++ fmt2 (appOutput constModel 50 120 80 90
          (some "lottie") (some "lottie")).confidence
      ++ "\nPulse Pressure: " ++ fmt2 (appOutput constModel 50 120 80 90
          (some "lottie") (some "lottie")).pulse_pressure
      ++ "\nMean Arterial Pressure: "
      ++ fmt2 (appOutput constModel 50 120 80 90
          (some "lottie") (some "lottie")).mean_arterial_pressure
      ++ "\n" ∧
    report_file_name = "dr_prediction_report.txt" :=
  c7_report_contents constModel okFetch okFetch 50 120 80 90
    (appOutput constModel 50 120 80 90 (some "lottie") (some "lottie")) rfl

/-- C8: for every completed run, the gauge's value is the confidence
scaled to 0–100, its axis spans [0, 100], its steps are exactly the three
fixed color bands, and its threshold marker sits at the confidence on the
same 0–100 scale. -/
theorem c8_gauge_fields (m : SVCModel) (f1 f2 : Fetch) (age : ℤ)
    (s d c : ℚ) (o : AppOutput) (h : runApp m f1 f2 age s d c = .ok o) :
    o.gauge.value = o.confidence * 100 ∧
    o.gauge.axis_range = (0, 100) ∧
    o.gauge.steps = [((0, 50), "#d4edda"), ((50, 75), "#fff3cd"),
      ((75, 100), "#f8d7da")] ∧
    o.gauge.threshold_value = o.confidence * 100 := by
  obtain ⟨a1, a2, -, -, rfl⟩ := (runApp_ok_iff m f1 f2 age s d c o).mp h
  exact ⟨rfl, rfl, rfl, rfl⟩

/-- Witness for C8 at a concrete successful run. -/
theorem c8_witness :
    (appOutput constModel 50 120 80 90 (some "lottie")
        (some "lottie")).gauge.value =
      (appOutput constModel 50 120 80 90 (some "lottie")
        (some "lottie")).confidence * 100 ∧
    (appOutput constModel 50 120 80 90 (some "lottie")
        (some "lottie")).gauge.axis_range = (0, 100) ∧
    (appOutput constModel 50 120 80 90 (some "lottie")
        (some "lottie")).gauge.steps =
      [((0, 50), "#d4edda"), ((50, 75), "#fff3cd"),
        ((75, 100), "#f8d7da")] ∧
    (appOutput constModel 50 120 80 90 (some "lottie")
        (some "lottie")).gauge.threshold_value =
      (appOutput constModel 50 120 80 90 (some "lottie")
        (some "lottie")).confidence * 100 :=
  c8_gauge_fields constModel okFetch okFetch 50 120 80 90
    (appOutput constModel 50 120 80 90 (some "lottie") (some "lottie")) rfl

/-- C9: for labels 0 and 1, the message-branch test `prediction == 1` and
the report's truthiness-selected label string agree: the risk-present
branch is taken exactly when the report says "DR Present", the risk-absent
branch exactly when it says "No DR". -/
theorem c9_branch_agreement (p : ℕ) (hp : p = 0 ∨ p = 1) :
    (riskBranch p = true ↔ label_string p = "DR Present") ∧
    (riskBranch p = false ↔ label_string p = "No DR") := by
  rcases hp with rfl | rfl <;> decide

/-- Witness for C9 at label 1. -/
theorem c9_witness :
    (riskBranch 1 = true ↔ label_string 1 = "DR Present") ∧
    (riskBranch 1 = false ↔ label_string 1 = "No DR") :=
  c9_branch_agreement 1 (Or.inr rfl)

/-- C10: over the §3 domains, the pulse pressure lies in [−50, 70]; it is
attained negative at systolic 70, diastolic 120, where the app still
completes the run and renders it as `-50.00` with no error branch. -/
theorem c10_pulse_pressure_range (s d : ℚ)
    (hs : 70 ≤ s ∧ s ≤ 130) (hd : 60 ≤ d ∧ d ≤ 120) :
    (-50 ≤ pulse_pressure s d ∧ pulse_pressure s d ≤ 70) ∧
    pulse_pressure 70 120 = -50 ∧
    fmt2 (pulse_pressure 70 120) = "-50.00" ∧
    (runApp constModel okFetch okFetch 50 70 120 90).map
      (fun o => o.pulse_pressure) = .ok (-50) := by
  obtain ⟨hs1, hs2⟩ := hs
  obtain ⟨hd1, hd2⟩ := hd
  refine ⟨⟨?_, ?_⟩, ?_, ?_, ?_⟩
  · simp only [pulse_pressure]
    linarith
  · simp only [pulse_pressure]
    linarith
  · norm_num [pulse_pressure]
  · rw [show pulse_pressure 70 120 = (-50 : ℚ) by norm_num [pulse_pressure]]
    rw [fmt2_eq (-50) (-5000) (by norm_num)]
    rfl
  · have hrun : runApp constModel okFetch okFetch 50 70 120 90 =
        .ok (appOutput constModel 50 70 120 90 (some "lottie")
          (some "lottie")) := rfl
    rw [hrun]
    simp only [Except.map]
    norm_num [appOutput, pulse_pressure]

/-- Witness for C10 at the extreme in-domain input. -/
theorem c10_witness :
    (-50 ≤ pulse_pressure 70 120 ∧ pulse_pressure 70 120 ≤ 70) ∧
    pulse_pressure 70 120 = -50 ∧
    fmt2 (pulse_pressure 70 120) = "-50.00" ∧
    (runApp constModel okFetch okFetch 50 70 120 90).map
      (fun o => o.pulse_pressure) = .ok (-50) :=
  c10_pulse_pressure_range 70 120 (by norm_num) (by norm_num)

end DRApp
